import Mathlib

/-!
Verification of the interpolation pipeline of `darskyplot.py` / `polarctes.py`
(felgari/darkskyplot).  The Python code is embedded shallowly: numpy arrays
become `List ℚ`, `np.interp` becomes exact piecewise-linear interpolation on
rationals, fallible steps (numpy `IndexError` on out-of-range indexing,
`ValueError` from `float(...)`, reshape size mismatch) become `Option` /
`Except`.
-/

/-! ### Constants from polarctes.py -/

/-- `DATA_FILE_MIN_LINES = 2`. -/
def DATA_FILE_MIN_LINES : Nat := 2

/-- `DATA_FILE_ITEM_WITH_TITLE = 0`. -/
def DATA_FILE_ITEM_WITH_TITLE : Nat := 0

/-- `DATA_FILE_ITEM_WITH_DATA = 1`. -/
def DATA_FILE_ITEM_WITH_DATA : Nat := 1

/-- `DATA_SIZE = 65`. -/
def DATA_SIZE : Nat := 65

/-- `ZENITHS = [20, 40, 60, 80, 90]`: zenith values where measures were taken. -/
def ZENITHS : List ℚ := [20, 40, 60, 80, 90]

/-- `ALL_ZENITH_VALUES = np.array(range(ZENITHS[0], ZENITHS[-1] + 1))`,
i.e. the 71 integers 20, 21, ..., 90. -/
def ALL_ZENITH_VALUES : List ℚ := (List.range 71).map (fun n => ((20 + n : ℕ) : ℚ))

/-- `ALL_ZENITH_VALUES_INV = np.array(range(ZENITHS[-1], ZENITHS[0] - 1, -1))`,
i.e. the 71 integers 90, 89, ..., 20. -/
def ALL_ZENITH_VALUES_INV : List ℚ := (List.range 71).map (fun n => ((90 - n : ℕ) : ℚ))

/-- `AZIMUTHS = [0, 30, ..., 360]`: azimuth values where measures were taken. -/
def AZIMUTHS : List ℚ :=
  [0, 30, 60, 90, 120, 150, 180, 210, 240, 270, 300, 330, 360]

/-- `AZIMUTH_RANGE = range(AZIMUTHS[0], AZIMUTHS[-1] + 1)`,
i.e. the 361 integers 0, 1, ..., 360. -/
def AZIMUTH_RANGE : List ℚ := (List.range 361).map (fun n : ℕ => (n : ℚ))

/-- `LIGHTEST_VALUE = 19.0`. -/
def LIGHTEST_VALUE : ℚ := 19

/-- `DARKER_VALUE = 22.0`. -/
def DARKER_VALUE : ℚ := 22

/-! ### np.interp -/

/-- One-point evaluation of numpy's `np.interp` over the list of
`(x-coordinate, y-value)` sample pairs (the zip of `xp` and `fp`, with `xp`
strictly increasing as in all call sites of this program): values are clamped
to the sample domain and linearly blended inside it.  Exact at every knot. -/
def interpPts (x : ℚ) : List (ℚ × ℚ) → ℚ
  | [] => 0
  | [(_, y0)] => y0
  | (x0, y0) :: (x1, y1) :: rest =>
    if x ≤ x0 then y0
    else if x ≤ x1 then y0 + (x - x0) * (y1 - y0) / (x1 - x0)
    else interpPts x ((x1, y1) :: rest)

/-- `np.interp(x, xp, fp)`: evaluate the piecewise-linear interpolant with
knots `xp` (x-coordinates) and `fp` (y-values) at every point of `x`. -/
def np_interp (x : List ℚ) (xp : List ℚ) (fp : List ℚ) : List ℚ :=
  x.map (fun t => interpPts t (xp.zip fp))

/-! ### interpolate_sky_measures (darskyplot.py, first loop) -/

/-- The successive slices `initial_values[i:i+len(ZENITHS)]` taken by the
`while` loop of `interpolate_sky_measures` (`i` advances by `len(ZENITHS)`
until it reaches `len(initial_values)`). -/
def zenith_chunks (l : List ℚ) : List (List ℚ) :=
  if _h : l = [] then []
  else l.take ZENITHS.length :: zenith_chunks (l.drop ZENITHS.length)
termination_by l.length
decreasing_by
  have h5 : ZENITHS.length = 5 := rfl
  simp only [List.length_drop, h5]
  have hl : l.length ≠ 0 := fun hc => _h (List.eq_nil_of_length_eq_zero hc)
  omega

/-- First loop of `interpolate_sky_measures`: for each azimuth block `yp` of
`len(ZENITHS)` raw values, append `np.interp(ALL_ZENITH_VALUES, ZENITHS, yp)`
to `interp_zeniths`.  `np.interp` raises when `len(fp) ≠ len(xp)` (a short
final slice), modelled by `none`. -/
def interp_zeniths (initial_values : List ℚ) : Option (List ℚ) :=
  if (zenith_chunks initial_values).all (fun yp => yp.length == ZENITHS.length) then
    some ((zenith_chunks initial_values).map
      (fun yp => np_interp ALL_ZENITH_VALUES ZENITHS yp)).flatten
  else none

/-- Sequence a list of optional values: `some` of the list of values when every
entry is `some`, otherwise `none` (a raised `IndexError` aborts the loop). -/
def seqOpt {α : Type} : List (Option α) → Option (List α)
  | [] => some []
  | o :: rest =>
    match o with
    | none => none
    | some x => (seqOpt rest).map (fun xs => x :: xs)

/-- Inner gather of the second loop of `interpolate_sky_measures`: for zenith
index `i`, collect `interp_zeniths[i + len(ALL_ZENITH_VALUES) * j]` for every
`j in range(len(AZIMUTHS))`; indexing out of range raises (`none`). -/
def values_at_zenith (iz : List ℚ) (i : Nat) : Option (List ℚ) :=
  seqOpt ((List.range AZIMUTHS.length).map
    (fun j => iz.get? (i + ALL_ZENITH_VALUES.length * j)))

/-- Second loop of `interpolate_sky_measures`: for each zenith index `i`,
interpolate the gathered profile onto `AZIMUTH_RANGE` with knots `AZIMUTHS`,
drop the last value (`[:-1]`), and concatenate the per-zenith results. -/
def all_azimuths (iz : List ℚ) : Option (List ℚ) :=
  (seqOpt ((List.range ALL_ZENITH_VALUES.length).map
    (fun i => (values_at_zenith iz i).map
      (fun v => (np_interp AZIMUTH_RANGE AZIMUTHS v).dropLast)))).map
    (fun bs => bs.flatten)

/-- `interpolate_sky_measures(initial_values)`: the two interpolation loops
composed. -/
def interpolate_sky_measures (initial_values : List ℚ) : Option (List ℚ) :=
  (interp_zeniths initial_values).bind all_azimuths

/-! ### prepare_interp_measures (darskyplot.py) -/

/-- numpy `reshape(rows, cols, order='F')` of a flat list: succeeds only when
the length is exactly `rows * cols`; in Fortran order the first index changes
fastest, so entry `(r, c)` of the result is element `c * rows + r` of the
flat sequence. -/
def reshapeF (l : List ℚ) (rows cols : Nat) : Option (List (List ℚ)) :=
  if l.length = rows * cols then
    some ((List.range rows).map
      (fun r => (List.range cols).map (fun c => l.getD (c * rows + r) 0)))
  else none

/-- The azimuth axis in radians: `np.radians(AZIMUTH_RANGE)` carries each
degree value `d` to `d·π/180`; the rational coefficient `d/180` of `π` is
kept (only the length and identity of this axis matter downstream). -/
def azimuth_radians : List ℚ := AZIMUTH_RANGE.map (fun d => d / 180)

/-- `prepare_interp_measures(interp_measures)`:
append `interp_measures[:71]` to the end, reshape to
`(len(azimuths), len(ALL_ZENITH_VALUES_INV))` in Fortran order, then assign
`interp_measures[-1] = interp_measures[0]`. -/
def prepare_interp_measures (interp_measures : List ℚ) :
    Option (List ℚ × List (List ℚ)) :=
  let ms := interp_measures ++ interp_measures.take 71
  match reshapeF ms azimuth_radians.length ALL_ZENITH_VALUES_INV.length with
  | none => none
  | some g => some (azimuth_radians, g.set (g.length - 1) (g.headD []))

/-- The grid assembly performed by `plot_polar` before rendering:
`interpolate_sky_measures` followed by `prepare_interp_measures`. -/
def assembled_grid (initial_values : List ℚ) :
    Option (List ℚ × List (List ℚ)) :=
  (interpolate_sky_measures initial_values).bind prepare_interp_measures

/-! ### Derived views of the azimuth pass (used to state properties) -/

/-- The profile the azimuth pass gathers for zenith index `z`: the scalar at
flat index `z + 71·j` of the interpolated-zenith sequence, for each of the
`len(AZIMUTHS) = 13` azimuth blocks `j`. -/
def azimuth_profile (iz : List ℚ) (z : Nat) : List ℚ :=
  (List.range AZIMUTHS.length).map
    (fun j => iz.getD (z + ALL_ZENITH_VALUES.length * j) 0)

/-- The azimuth-interpolated value at dense azimuth `a` and dense zenith
index `z`, as computed by the second loop of `interpolate_sky_measures`. -/
def azimuth_interp_at (iz : List ℚ) (z a : Nat) : ℚ :=
  (np_interp AZIMUTH_RANGE AZIMUTHS (azimuth_profile iz z)).getD a 0

/-! ### Ingestion (data_is_valid / read_data_files) -/

/-- An entry of the comma-split data line: either the text of a real number
(carrying its value) or text that `float(...)` cannot parse. -/
inductive Tok : Type
  | num (q : ℚ) : Tok
  | nonnum : Tok
deriving DecidableEq

/-- The list comprehension `[float(i) for i in data_line_split]`: `float`
raises `ValueError` (modelled by `Except.error ()`) on a non-numeric entry. -/
def floats : List Tok → Except Unit (List ℚ)
  | [] => Except.ok []
  | Tok.num q :: rest => (floats rest).map (fun qs => q :: qs)
  | Tok.nonnum :: _ => Except.error ()

/-- `data_is_valid(data_read)`: given the lines of a file (the data line
already comma-split into entries), return `some (title_line, numbers)` when
the format checks pass, `none` (Python `None`) when a check fails, and a
raised exception (`Except.error`) when `float(...)` raises. -/
def data_is_valid (data_read : List (List Tok)) :
    Except Unit (Option (List Tok × List ℚ)) :=
  if DATA_FILE_MIN_LINES ≤ data_read.length then
    if (data_read.getD DATA_FILE_ITEM_WITH_DATA []).length = DATA_SIZE then
      match floats (data_read.getD DATA_FILE_ITEM_WITH_DATA []) with
      | Except.error e => Except.error e
      | Except.ok data_numbers =>
        -- `all(isinstance(x, float) for x in data_numbers)` is always true:
        -- every element produced by `float` is a float.
        if data_numbers.all (fun _ => true) then
          Except.ok (some (data_read.getD DATA_FILE_ITEM_WITH_TITLE [], data_numbers))
        else Except.ok none
    else Except.ok none
  else Except.ok none

/-- `read_data_files`: validate each file's lines in turn, keeping the records
for which `data_is_valid` did not return `None`; an exception raised inside
`data_is_valid` propagates. -/
def read_data_files : List (List (List Tok)) →
    Except Unit (List (List Tok × List ℚ))
  | [] => Except.ok []
  | file :: rest =>
    match data_is_valid file with
    | Except.error e => Except.error e
    | Except.ok none => read_data_files rest
    | Except.ok (some rec) => (read_data_files rest).map (fun l => rec :: l)

/-! ### plot_polar corner substitution -/

/-- The data mutation in `plot_polar` guarded by
`if not progargs.use_data_for_color_range`: assign
`interp_measures[0][0] = LIGHTEST_VALUE` and then
`interp_measures[-1][-1] = DARKER_VALUE`. -/
def apply_color_range (use_data_for_color_range : Bool)
    (interp_measures : List (List ℚ)) : List (List ℚ) :=
  if !use_data_for_color_range then
    let g1 := interp_measures.set 0
      ((interp_measures.headD []).set 0 LIGHTEST_VALUE)
    g1.set (g1.length - 1)
      ((g1.getLastD []).set ((g1.getLastD []).length - 1) DARKER_VALUE)
  else interp_measures

/-! ### Helper lemmas: constants -/

theorem ZENITHS_length : ZENITHS.length = 5 := rfl

theorem AZIMUTHS_length : AZIMUTHS.length = 13 := rfl

theorem ALL_ZENITH_VALUES_length : ALL_ZENITH_VALUES.length = 71 := by
  simp [ALL_ZENITH_VALUES]

theorem ALL_ZENITH_VALUES_INV_length : ALL_ZENITH_VALUES_INV.length = 71 := by
  simp [ALL_ZENITH_VALUES_INV]

theorem AZIMUTH_RANGE_length : AZIMUTH_RANGE.length = 361 := by
  rw [AZIMUTH_RANGE, List.length_map, List.length_range]

theorem azimuth_radians_length : azimuth_radians.length = 361 := by
  rw [azimuth_radians, List.length_map, AZIMUTH_RANGE_length]

/-! ### Helper lemmas: list indexing -/

theorem get?_map_range {α : Type} (f : Nat → α) {n i : Nat} (h : i < n) :
    ((List.range n).map f).get? i = some (f i) := by
  rw [List.get?_map, List.get?_range h, Option.map_some']

theorem getD_map_range {α : Type} [Inhabited α] (f : Nat → α) (d : α) {n i : Nat}
    (h : i < n) : ((List.range n).map f).getD i d = f i := by
  rw [List.getD_eq_get?, get?_map_range f h, Option.getD_some]

theorem get?_eq_some_getD (l : List ℚ) {i : Nat} (h : i < l.length) :
    l.get? i = some (l.getD i 0) := by
  rw [List.getD_eq_get?]
  cases hg : l.get? i with
  | none => rw [List.get?_eq_none] at hg; omega
  | some x => rfl

theorem getD_append_left (l₁ l₂ : List ℚ) {n : Nat} (d : ℚ) (h : n < l₁.length) :
    (l₁ ++ l₂).getD n d = l₁.getD n d := by
  rw [List.getD_eq_get?, List.getD_eq_get?, List.get?_append h]

theorem getD_take (l : List ℚ) {n m : Nat} (d : ℚ) (h : m < n) :
    (l.take n).getD m d = l.getD m d := by
  rw [List.getD_eq_get?, List.getD_eq_get?, List.get?_take h]

/-! ### Helper lemmas: seqOpt -/

theorem seqOpt_map_some {α : Type} (l : List α) : seqOpt (l.map some) = some l := by
  induction l with
  | nil => rfl
  | cons a l ih => simp [seqOpt, ih]

theorem seqOpt_eq_none {α : Type} (l : List (Option α)) (h : none ∈ l) :
    seqOpt l = none := by
  induction l with
  | nil => cases h
  | cons o l ih =>
    cases o with
    | none => rfl
    | some x =>
      have hl : (none : Option α) ∈ l := by
        cases h with
        | tail _ h' => exact h'
      simp [seqOpt, ih hl]

/-! ### Helper lemmas: zenith_chunks -/

theorem zenith_chunks_nil : zenith_chunks [] = [] := by
  rw [zenith_chunks]; rfl

theorem zenith_chunks_cons (l : List ℚ) (h : l ≠ []) :
    zenith_chunks l = l.take 5 :: zenith_chunks (l.drop 5) := by
  rw [zenith_chunks]
  simp [h, ZENITHS_length]

theorem zenith_chunks_spec : ∀ (k : Nat) (l : List ℚ), l.length = 5 * k →
    (zenith_chunks l).length = k ∧
    (∀ c ∈ zenith_chunks l, c.length = 5) ∧
    (∀ j, j < k → (zenith_chunks l).get? j = some ((l.drop (5 * j)).take 5)) := by
  intro k
  induction k with
  | zero =>
    intro l hl
    have hnil : l = [] := List.eq_nil_of_length_eq_zero (by omega)
    subst hnil
    refine ⟨by simp [zenith_chunks_nil], by simp [zenith_chunks_nil], ?_⟩
    intro j hj; omega
  | succ k ih =>
    intro l hl
    have hne : l ≠ [] := by
      intro hc; subst hc; simp at hl
    have hdrop : (l.drop 5).length = 5 * k := by
      rw [List.length_drop]; omega
    obtain ⟨ih1, ih2, ih3⟩ := ih (l.drop 5) hdrop
    rw [zenith_chunks_cons l hne]
    refine ⟨by simp [ih1], ?_, ?_⟩
    · intro c hc
      cases hc with
      | head => rw [List.length_take]; omega
      | tail _ hc' => exact ih2 c hc'
    · intro j hj
      cases j with
      | zero => simp
      | succ j =>
        rw [List.get?_cons_succ, ih3 j (by omega), List.drop_drop]
        have harith : 5 + 5 * j = 5 * (j + 1) := by ring
        rw [harith]

/-! ### Helper lemmas: flatten of equal-length blocks -/

theorem flatten_length_eq {α : Type} (n : Nat) (L : List (List α))
    (h : ∀ b ∈ L, b.length = n) : L.flatten.length = n * L.length := by
  induction L with
  | nil => simp
  | cons b L ih =>
    rw [List.flatten_cons, List.length_append, h b (by simp),
      ih (fun c hc => h c (by simp [hc])), List.length_cons]
    ring

theorem flatten_get? {α : Type} (n : Nat) : ∀ (L : List (List α)) (j i : Nat),
    (∀ b ∈ L, b.length = n) → i < n → j < L.length →
    L.flatten.get? (n * j + i) = (L.getD j []).get? i := by
  intro L
  induction L with
  | nil => intro j i _ _ hj; simp at hj
  | cons b L ih =>
    intro j i hb hi hj
    have hbl : b.length = n := hb b (by simp)
    cases j with
    | zero =>
      rw [List.flatten_cons, Nat.mul_zero, Nat.zero_add,
        List.get?_append (by omega), List.getD_cons_zero]
    | succ j =>
      rw [List.flatten_cons]
      have hs : n * (j + 1) = n * j + n := by ring
      rw [List.get?_append_right (by omega)]
      have hidx : n * (j + 1) + i - b.length = n * j + i := by omega
      rw [hidx, ih j i (fun c hc => hb c (by simp [hc])) hi (by simpa using hj),
        List.getD_cons_succ]

/-! ### Helper lemmas: np.interp call sites -/

theorem np_interp_length (x xp fp : List ℚ) :
    (np_interp x xp fp).length = x.length := by
  rw [np_interp, List.length_map]

theorem np_interp_AV_get? (fp : List ℚ) {z : Nat} (hz : z < 71) :
    (np_interp ALL_ZENITH_VALUES ZENITHS fp).get? z =
      some (interpPts ((20 + z : ℕ) : ℚ) (ZENITHS.zip fp)) := by
  rw [np_interp, ALL_ZENITH_VALUES, List.map_map, get?_map_range _ hz]
  rfl

theorem np_interp_AZR_getD (fp : List ℚ) {a : Nat} (ha : a < 361) :
    (np_interp AZIMUTH_RANGE AZIMUTHS fp).getD a 0 =
      interpPts (a : ℚ) (AZIMUTHS.zip fp) := by
  rw [np_interp, AZIMUTH_RANGE, List.map_map, getD_map_range _ _ ha]
  rfl

/-! ### Specification of the zenith pass -/

theorem interp_zeniths_spec (values : List ℚ) (k : Nat) (h : values.length = 5 * k) :
    ∃ iz, interp_zeniths values = some iz ∧ iz.length = 71 * k ∧
      ∀ j z, j < k → z < 71 →
        iz.get? (z + 71 * j) =
          some (interpPts ((20 + z : ℕ) : ℚ)
            (ZENITHS.zip ((values.drop (5 * j)).take 5))) := by
  obtain ⟨hlen, hmem, hget⟩ := zenith_chunks_spec k values h
  set L := (zenith_chunks values).map
    (fun yp => np_interp ALL_ZENITH_VALUES ZENITHS yp) with hL
  have hLlen : L.length = k := by rw [hL, List.length_map, hlen]
  have hLb : ∀ b ∈ L, b.length = 71 := by
    intro b hb
    rw [hL] at hb
    obtain ⟨c, _hc, rfl⟩ := List.mem_map.mp hb
    rw [np_interp_length, ALL_ZENITH_VALUES_length]
  have hall : (zenith_chunks values).all
      (fun yp => yp.length == ZENITHS.length) = true := by
    rw [List.all_eq_true]
    intro yp hyp
    rw [beq_iff_eq, ZENITHS_length]
    exact hmem yp hyp
  refine ⟨L.flatten, ?_, ?_, ?_⟩
  · rw [interp_zeniths, if_pos hall]
  · rw [flatten_length_eq 71 L hLb, hLlen]
  · intro j z hj hz
    have harith : z + 71 * j = 71 * j + z := by ring
    rw [harith, flatten_get? 71 L j z hLb hz (by omega)]
    have hblock : L.getD j [] =
        np_interp ALL_ZENITH_VALUES ZENITHS ((values.drop (5 * j)).take 5) := by
      rw [List.getD_eq_get?, hL, List.get?_map, hget j hj]
      rfl
    rw [hblock, np_interp_AV_get? _ hz]

/-! ### Specification of the azimuth pass -/

/-- The list of per-zenith azimuth blocks (each of length 360) produced by the
second loop of `interpolate_sky_measures` on a 923-long zenith sequence. -/
def azimuth_blocks (iz : List ℚ) : List (List ℚ) :=
  (List.range 71).map
    (fun i => (np_interp AZIMUTH_RANGE AZIMUTHS (azimuth_profile iz i)).dropLast)

theorem values_at_zenith_spec (iz : List ℚ) (h : iz.length = 923) {i : Nat}
    (hi : i < 71) : values_at_zenith iz i = some (azimuth_profile iz i) := by
  rw [values_at_zenith, azimuth_profile]
  simp only [AZIMUTHS_length, ALL_ZENITH_VALUES_length]
  have hmap : (List.range 13).map (fun j => iz.get? (i + 71 * j)) =
      ((List.range 13).map (fun j => iz.getD (i + 71 * j) 0)).map some := by
    rw [List.map_map]
    apply List.map_congr_left
    intro j hj
    have hj13 : j < 13 := List.mem_range.mp hj
    exact get?_eq_some_getD iz (by omega)
  rw [hmap, seqOpt_map_some]

theorem all_azimuths_spec (iz : List ℚ) (h : iz.length = 923) :
    all_azimuths iz = some (azimuth_blocks iz).flatten := by
  rw [all_azimuths]
  simp only [ALL_ZENITH_VALUES_length]
  have hmap : (List.range 71).map (fun i => (values_at_zenith iz i).map
      (fun v => (np_interp AZIMUTH_RANGE AZIMUTHS v).dropLast)) =
      (azimuth_blocks iz).map some := by
    rw [azimuth_blocks, List.map_map]
    apply List.map_congr_left
    intro i hi
    rw [values_at_zenith_spec iz h (List.mem_range.mp hi)]
    rfl
  rw [hmap, seqOpt_map_some]
  rfl

theorem azimuth_blocks_lengths (iz : List ℚ) :
    ∀ b ∈ azimuth_blocks iz, b.length = 360 := by
  intro b hb
  rw [azimuth_blocks] at hb
  obtain ⟨i, _, rfl⟩ := List.mem_map.mp hb
  rw [List.length_dropLast, np_interp_length, AZIMUTH_RANGE_length]

theorem azimuth_blocks_count (iz : List ℚ) : (azimuth_blocks iz).length = 71 := by
  rw [azimuth_blocks, List.length_map, List.length_range]

theorem azimuth_blocks_flatten_length (iz : List ℚ) :
    (azimuth_blocks iz).flatten.length = 25560 := by
  rw [flatten_length_eq 360 _ (azimuth_blocks_lengths iz), azimuth_blocks_count]

theorem aa_getD (iz : List ℚ) {z a : Nat} (hz : z < 71) (ha : a < 360) :
    (azimuth_blocks iz).flatten.getD (360 * z + a) 0 = azimuth_interp_at iz z a := by
  rw [List.getD_eq_get?,
    flatten_get? 360 _ z a (azimuth_blocks_lengths iz) ha
      (by rw [azimuth_blocks_count]; omega),
    azimuth_blocks, getD_map_range _ _ hz, List.dropLast_eq_take,
    List.get?_take (by rw [np_interp_length, AZIMUTH_RANGE_length]; omega),
    get?_eq_some_getD _ (by rw [np_interp_length, AZIMUTH_RANGE_length]; omega),
    Option.getD_some]
  rfl

/-! ### Specification of the grid assembler -/

theorem prepare_spec (ms : List ℚ) (h : ms.length = 25560) :
    ∃ g, prepare_interp_measures ms = some (azimuth_radians, g) ∧
      g.length = 361 ∧
      (∀ row ∈ g, row.length = 71) ∧
      g.getD 360 [] = g.getD 0 [] ∧
      (∀ r c, r < 360 → c < 71 →
        (g.getD r []).getD c 0 = (ms ++ ms.take 71).getD (c * 361 + r) 0) := by
  have hext : (ms ++ ms.take 71).length = 25631 := by
    rw [List.length_append, List.length_take]
    omega
  set g0 := (List.range 361).map
    (fun r => (List.range 71).map
      (fun c => (ms ++ ms.take 71).getD (c * 361 + r) 0)) with hg0
  have hg0len : g0.length = 361 := by
    rw [hg0, List.length_map, List.length_range]
  have hresh : reshapeF (ms ++ ms.take 71) azimuth_radians.length
      ALL_ZENITH_VALUES_INV.length = some g0 := by
    rw [reshapeF]
    simp only [azimuth_radians_length, ALL_ZENITH_VALUES_INV_length]
    rw [if_pos (by omega)]
  have hhead : g0.headD [] =
      (List.range 71).map (fun c => (ms ++ ms.take 71).getD (c * 361 + 0) 0) := by
    rw [List.headD_eq_head?, ← List.get?_zero, hg0, get?_map_range _ (by omega),
      Option.getD_some]
  have hsetidx : g0.length - 1 = 360 := by rw [hg0len]
  refine ⟨g0.set (g0.length - 1) (g0.headD []), ?_, ?_, ?_, ?_, ?_⟩
  · unfold prepare_interp_measures
    simp only [hresh]
  · rw [List.length_set, hg0len]
  · intro row hrow
    rcases List.mem_or_eq_of_mem_set hrow with hmem | rfl
    · rw [hg0] at hmem
      obtain ⟨r, _, rfl⟩ := List.mem_map.mp hmem
      rw [List.length_map, List.length_range]
    · rw [hhead, List.length_map, List.length_range]
  · rw [List.getD_eq_get?, List.getD_eq_get?, hsetidx,
      List.get?_set_eq_of_lt _ (by omega),
      List.get?_set_ne _ _ (by omega),
      hg0, get?_map_range _ (by omega), hhead]
  · intro r c hr hc
    have hne : g0.length - 1 ≠ r := by omega
    have hrow : (g0.set (g0.length - 1) (g0.headD [])).getD r [] =
        (List.range 71).map (fun c => (ms ++ ms.take 71).getD (c * 361 + r) 0) := by
      rw [List.getD_eq_get? (g0.set (g0.length - 1) (g0.headD [])) r,
        List.get?_set_ne _ _ hne, hg0, get?_map_range _ (by omega),
        Option.getD_some]
    rw [hrow, getD_map_range _ _ hc]

theorem assembled_grid_spec (values : List ℚ) (h : values.length = 65) :
    ∃ iz g, interp_zeniths values = some iz ∧ iz.length = 923 ∧
      interpolate_sky_measures values = some (azimuth_blocks iz).flatten ∧
      assembled_grid values = some (azimuth_radians, g) ∧
      g.length = 361 ∧ (∀ row ∈ g, row.length = 71) ∧
      g.getD 360 [] = g.getD 0 [] ∧
      (∀ a z, a + z ≤ 359 → z ≤ 70 →
        (g.getD a []).getD z 0 = azimuth_interp_at iz z (a + z)) := by
  obtain ⟨iz, hiz, hizlen, _⟩ := interp_zeniths_spec values 13 (by omega)
  have hizlen923 : iz.length = 923 := by rw [hizlen]
  have haa : all_azimuths iz = some (azimuth_blocks iz).flatten :=
    all_azimuths_spec iz hizlen923
  have hinterp : interpolate_sky_measures values =
      some (azimuth_blocks iz).flatten := by
    rw [interpolate_sky_measures, hiz, Option.some_bind, haa]
  obtain ⟨g, hprep, hglen, hrows, hseam, hentry⟩ :=
    prepare_spec _ (azimuth_blocks_flatten_length iz)
  refine ⟨iz, g, hiz, hizlen923, hinterp, ?_, hglen, hrows, hseam, ?_⟩
  · rw [assembled_grid, hinterp, Option.some_bind, hprep]
  · intro a z haz hz
    rw [hentry a z (by omega) (by omega)]
    have hidx : z * 361 + a = 360 * z + (a + z) := by ring
    rw [hidx,
      getD_append_left _ _ _ (by rw [azimuth_blocks_flatten_length]; omega)]
    exact aa_getD iz (by omega) (by omega)

/-! ### The azimuth profile in terms of the raw record values -/

theorem azimuth_profile_eq (values iz : List ℚ) (h : values.length = 65)
    (hiz : interp_zeniths values = some iz) {z : Nat} (hz : z < 71) :
    azimuth_profile iz z = (List.range 13).map
      (fun j => interpPts ((20 + z : ℕ) : ℚ)
        (ZENITHS.zip ((values.drop (5 * j)).take 5))) := by
  obtain ⟨iz', hiz', _, hget⟩ := interp_zeniths_spec values 13 (by omega)
  rw [hiz] at hiz'
  obtain rfl : iz = iz' := Option.some.inj hiz'
  rw [azimuth_profile]
  simp only [AZIMUTHS_length, ALL_ZENITH_VALUES_length]
  apply List.map_congr_left
  intro j hj
  have hj13 : j < 13 := List.mem_range.mp hj
  rw [List.getD_eq_get?, hget j z hj13 hz, Option.getD_some]

/-! ### Behaviour of interpPts at the closing (360°) knot -/

theorem interpPts_closing (x : ℚ) (xe ye : ℚ) : ∀ (ps : List (ℚ × ℚ)),
    (∀ q ∈ ps, q.1 < x) → xe = x →
    interpPts x (ps ++ [(xe, ye)]) = ye := by
  intro ps
  induction ps with
  | nil =>
    intro _ _
    rfl
  | cons p rest ih =>
    intro h hx
    obtain ⟨x0, y0⟩ := p
    have hx0 : x0 < x := h (x0, y0) (by simp)
    cases rest with
    | nil =>
      subst hx
      simp only [List.nil_append, List.cons_append]
      rw [interpPts, if_neg (by linarith), if_pos le_rfl]
      have hne : xe - x0 ≠ 0 := sub_ne_zero_of_ne (ne_of_gt hx0)
      field_simp
    | cons q rest' =>
      have hq : q.1 < x := h q (by simp)
      obtain ⟨x1, y1⟩ := q
      simp only [List.cons_append]
      rw [interpPts, if_neg (by linarith), if_neg (not_le.mpr hq)]
      exact ih (fun r hr => h r (by simp [hr])) hx

theorem interpPts_AZ_360 (p : List ℚ) (hp : p.length = 13) :
    interpPts 360 (AZIMUTHS.zip p) = p.getD 12 0 := by
  have h2 : p.drop 12 = [p.getD 12 0] := by
    obtain ⟨a, ha⟩ := List.length_eq_one.mp
      (show (p.drop 12).length = 1 by rw [List.length_drop]; omega)
    have hget : p.get? 12 = some a := by
      rw [show (12 : Nat) = 12 + 0 by rfl, ← List.get?_drop, ha]
      rfl
    rw [ha, List.getD_eq_get?, hget, Option.getD_some]
  have hsplit : p.take 12 ++ [p.getD 12 0] = p := by
    rw [← h2, List.take_append_drop]
  have hA : AZIMUTHS =
      [(0:ℚ), 30, 60, 90, 120, 150, 180, 210, 240, 270, 300, 330] ++ [(360:ℚ)] := rfl
  have hzipsplit : AZIMUTHS.zip p =
      [(0:ℚ), 30, 60, 90, 120, 150, 180, 210, 240, 270, 300, 330].zip (p.take 12) ++
        [((360:ℚ), p.getD 12 0)] := by
    conv_lhs => rw [← hsplit, hA]
    rw [List.zip_append (by simp; omega)]
    rfl
  rw [hzipsplit, interpPts_closing 360 360 (p.getD 12 0) _ ?_ rfl]
  intro q hq
  have h1 := (List.of_mem_zip hq).1
  simp only [List.mem_cons, List.not_mem_nil, or_false] at h1
  rcases h1 with h | h | h | h | h | h | h | h | h | h | h | h <;> rw [h] <;> norm_num

/-! ### Ingestion lemmas -/

theorem floats_length : ∀ (toks : List Tok) (qs : List ℚ),
    floats toks = Except.ok qs → qs.length = toks.length := by
  intro toks
  induction toks with
  | nil =>
    intro qs h
    simp only [floats] at h
    obtain rfl : ([] : List ℚ) = qs := by
      cases h
      rfl
    rfl
  | cons t rest ih =>
    intro qs h
    cases t with
    | num q =>
      simp only [floats] at h
      cases hr : floats rest with
      | error e => rw [hr] at h; simp [Except.map] at h
      | ok qs' =>
        rw [hr] at h
        simp only [Except.map] at h
        obtain rfl : q :: qs' = qs := by
          cases h
          rfl
        simp [ih qs' hr]
    | nonnum => simp [floats] at h

theorem data_is_valid_accepted : ∀ (dr : List (List Tok))
    (rec : List Tok × List ℚ), data_is_valid dr = Except.ok (some rec) →
    rec.2.length = DATA_SIZE := by
  intro dr rec h
  unfold data_is_valid at h
  split at h
  · split at h
    · rename_i hsize
      split at h
      · simp at h
      · rename_i qs hq
        split at h
        · obtain rfl : (dr.getD DATA_FILE_ITEM_WITH_TITLE [], qs) = rec := by
            cases h
            rfl
          rw [show (dr.getD DATA_FILE_ITEM_WITH_TITLE [], qs).2 = qs from rfl,
            floats_length _ qs hq, hsize]
        · simp at h
    · simp at h
  · simp at h

theorem data_is_valid_wrong_size (dr : List (List Tok))
    (h : (dr.getD DATA_FILE_ITEM_WITH_DATA []).length ≠ DATA_SIZE) :
    data_is_valid dr = Except.ok none := by
  unfold data_is_valid
  rcases Nat.lt_or_ge dr.length DATA_FILE_MIN_LINES with hlt | hge
  · rw [if_neg (by omega)]
  · rw [if_pos hge, if_neg h]

theorem read_data_files_mem : ∀ (files : List (List (List Tok)))
    (res : List (List Tok × List ℚ)) (rec : List Tok × List ℚ),
    read_data_files files = Except.ok res → rec ∈ res →
    rec.2.length = DATA_SIZE := by
  intro files
  induction files with
  | nil =>
    intro res rec h hm
    simp only [read_data_files] at h
    obtain rfl : ([] : List (List Tok × List ℚ)) = res := by
      cases h
      rfl
    cases hm
  | cons file rest ih =>
    intro res rec h hm
    simp only [read_data_files] at h
    split at h
    · simp at h
    · exact ih res rec h hm
    · rename_i r hr
      cases hrest : read_data_files rest with
      | error e => rw [hrest] at h; simp [Except.map] at h
      | ok res' =>
        rw [hrest] at h
        simp only [Except.map] at h
        obtain rfl : r :: res' = res := by
          cases h
          rfl
        cases hm with
        | head => exact data_is_valid_accepted file rec hr
        | tail _ hm' => exact ih res' rec hrest hm'

/-! ### Failure of the pipeline on a 60-value record -/

theorem interpolate_none_of_60 (values : List ℚ) (h : values.length = 60) :
    interpolate_sky_measures values = none := by
  obtain ⟨iz, hiz, hlen, _⟩ := interp_zeniths_spec values 12 (by omega)
  rw [interpolate_sky_measures, hiz, Option.some_bind, all_azimuths]
  have hnone : values_at_zenith iz 0 = none := by
    rw [values_at_zenith]
    apply seqOpt_eq_none
    apply List.mem_map.mpr
    refine ⟨12, by simp [AZIMUTHS_length], ?_⟩
    simp only [ALL_ZENITH_VALUES_length]
    exact List.get?_eq_none.mpr (by omega)
  rw [seqOpt_eq_none]
  · rfl
  · apply List.mem_map.mpr
    refine ⟨0, by simp [ALL_ZENITH_VALUES_length], ?_⟩
    rw [hnone]
    rfl

/-! ### More indexing helpers -/

theorem headD_eq_getD {α : Type} (l : List α) (d : α) : l.headD d = l.getD 0 d := by
  rw [List.headD_eq_head?, ← List.get?_zero, List.getD_eq_get?]

theorem getLastD_eq_getD {α : Type} (l : List α) (d : α) :
    l.getLastD d = l.getD (l.length - 1) d := by
  rw [List.getLastD_eq_getLast?, List.getLast?_eq_get?, List.getD_eq_get?]

/-! ### Concrete measurement records used as test inputs -/

/-- A valid record of 65 zero measurements. -/
def zeros65 : List ℚ := List.replicate 65 0

/-- A 60-value sequence (the length `(N_a - 1) * N_z` = 12·5 named by the
spec), all zeros. -/
def zeros60 : List ℚ := List.replicate 60 0

/-- A valid 65-value record that is zero everywhere except at flat index 6,
i.e. at (sampled azimuth 30°, sampled zenith 40°), where it is 30. -/
def record_c1 : List ℚ := (List.range 65).map (fun k => if k = 6 then (30:ℚ) else 0)

/-- A valid 65-value record whose last azimuth block (the explicit 360°
block, flat indices 60–64) is 30 everywhere, and 0 elsewhere. -/
def record_c3 : List ℚ := (List.range 65).map (fun k => if 60 ≤ k then (30:ℚ) else 0)

theorem zeros65_length : zeros65.length = 65 := by simp [zeros65]

theorem record_c1_length : record_c1.length = 65 := by simp [record_c1]

theorem record_c3_length : record_c3.length = 65 := by simp [record_c3]

/-! ### Claim C5 -/

/-- C5: for a valid 65-value record and dense indices `a + z ≤ 359`, the
assembled grid cell `grid[a][z]` holds the azimuth-interpolated value computed
for dense azimuth `a + z` at dense zenith `z` (each zenith column is rotated
in azimuth by its own column index). -/
theorem C5_grid_rotation (values : List ℚ) (h : values.length = 65)
    (a z : Nat) (hz : z ≤ 70) (haz : a + z ≤ 359) :
    ∃ iz az grid, interp_zeniths values = some iz ∧
      assembled_grid values = some (az, grid) ∧
      (grid.getD a []).getD z 0 = azimuth_interp_at iz z (a + z) := by
  obtain ⟨iz, g, hiz, _, _, hag, _, _, _, hentry⟩ := assembled_grid_spec values h
  exact ⟨iz, azimuth_radians, g, hiz, hag, hentry a z haz hz⟩

/-- Witness for C5 at a concrete record and concrete indices. -/
theorem C5_grid_rotation_witness :
    ∃ iz az grid, interp_zeniths zeros65 = some iz ∧
      assembled_grid zeros65 = some (az, grid) ∧
      (grid.getD 100 []).getD 20 0 = azimuth_interp_at iz 20 (100 + 20) :=
  C5_grid_rotation zeros65 zeros65_length 100 20 (by norm_num) (by norm_num)

/-! ### Claim C6 -/

/-- C6: for every valid 65-value record, the assembled grid's last row
(azimuth 360°) is an exact copy of its first row (azimuth 0°). -/
theorem C6_seam_closure (values : List ℚ) (h : values.length = 65) :
    ∃ az grid, assembled_grid values = some (az, grid) ∧
      grid.getD (grid.length - 1) [] = grid.getD 0 [] := by
  obtain ⟨iz, g, _, _, _, hag, hlen, _, hseam, _⟩ := assembled_grid_spec values h
  refine ⟨azimuth_radians, g, hag, ?_⟩
  rw [show g.length - 1 = 360 by omega]
  exact hseam

/-- Witness for C6 at a concrete record. -/
theorem C6_seam_closure_witness :
    ∃ az grid, assembled_grid zeros65 = some (az, grid) ∧
      grid.getD (grid.length - 1) [] = grid.getD 0 [] :=
  C6_seam_closure zeros65 zeros65_length

/-! ### Claim C7 -/

/-- C7: for every valid 65-value record, the assembled output grid has shape
`(len(dense_azimuths), len(dense_zeniths)) = (361, 71)`. -/
theorem C7_shape (values : List ℚ) (h : values.length = 65) :
    ∃ az grid, assembled_grid values = some (az, grid) ∧
      grid.length = AZIMUTH_RANGE.length ∧
      (∀ row ∈ grid, row.length = ALL_ZENITH_VALUES_INV.length) ∧
      AZIMUTH_RANGE.length = 361 ∧ ALL_ZENITH_VALUES_INV.length = 71 := by
  obtain ⟨iz, g, _, _, _, hag, hlen, hrows, _, _⟩ := assembled_grid_spec values h
  refine ⟨azimuth_radians, g, hag, ?_, ?_, AZIMUTH_RANGE_length,
    ALL_ZENITH_VALUES_INV_length⟩
  · rw [hlen, AZIMUTH_RANGE_length]
  · intro row hrow
    rw [ALL_ZENITH_VALUES_INV_length]
    exact hrows row hrow

/-- Witness for C7 at a concrete record. -/
theorem C7_shape_witness :
    ∃ az grid, assembled_grid zeros65 = some (az, grid) ∧
      grid.length = AZIMUTH_RANGE.length ∧
      (∀ row ∈ grid, row.length = ALL_ZENITH_VALUES_INV.length) ∧
      AZIMUTH_RANGE.length = 361 ∧ ALL_ZENITH_VALUES_INV.length = 71 :=
  C7_shape zeros65 zeros65_length

/-! ### Claim C2 -/

/-- C2 counterexample: appending only the first `len(dense_zeniths) - 1 = 70`
elements, as the claim states, would make the `(361, 71)` Fortran reshape fail
(25560 + 70 ≠ 361·71), while the actual assembler succeeds on the same
25560-long zenith-major sequence — so its first step cannot append 70
elements. -/
theorem C2_counterexample :
    reshapeF (List.replicate 25560 (0:ℚ) ++
        (List.replicate 25560 (0:ℚ)).take (71 - 1))
      azimuth_radians.length ALL_ZENITH_VALUES_INV.length = none ∧
    prepare_interp_measures (List.replicate 25560 (0:ℚ)) ≠ none := by
  constructor
  · rw [reshapeF]
    simp only [azimuth_radians_length, ALL_ZENITH_VALUES_INV_length]
    rw [if_neg]
    rw [List.length_append, List.length_take, List.length_replicate]
    omega
  · obtain ⟨g, hp, _⟩ := prepare_spec (List.replicate 25560 (0:ℚ)) (List.length_replicate 25560 0)
    rw [hp]
    exact Option.some_ne_none _

/-- C2 amended: the Grid Assembler appends the first `len(dense_zeniths) = 71`
elements of the zenith-major sequence — the azimuth-interpolated values at the
first dense zenith (20°) for azimuths 0°..70°, not a zenith profile of
azimuth 0° — and the reshape into `(361, 71)` then succeeds. -/
theorem C2_amended (values : List ℚ) (h : values.length = 65) :
    ∃ iz aa az grid, interp_zeniths values = some iz ∧
      interpolate_sky_measures values = some aa ∧
      aa.length = 25560 ∧
      (aa ++ aa.take 71).length = 361 * 71 ∧
      (∀ k, k < 71 → (aa.take 71).getD k 0 = azimuth_interp_at iz 0 k) ∧
      prepare_interp_measures aa = some (az, grid) ∧
      assembled_grid values = some (az, grid) := by
  obtain ⟨iz, g, hiz, _, hinterp, hag, _, _, _, _⟩ := assembled_grid_spec values h
  have haalen : (azimuth_blocks iz).flatten.length = 25560 :=
    azimuth_blocks_flatten_length iz
  have hprep : prepare_interp_measures (azimuth_blocks iz).flatten =
      some (azimuth_radians, g) := by
    rw [assembled_grid, hinterp, Option.some_bind] at hag
    exact hag
  refine ⟨iz, (azimuth_blocks iz).flatten, azimuth_radians, g, hiz, hinterp,
    haalen, ?_, ?_, hprep, hag⟩
  · rw [List.length_append, List.length_take, haalen]
    omega
  · intro k hk
    rw [getD_take _ _ hk]
    have := aa_getD iz (show (0:Nat) < 71 by omega) (show k < 360 by omega)
    simpa using this

/-- Witness for the amended C2 at a concrete record. -/
theorem C2_amended_witness :
    ∃ iz aa az grid, interp_zeniths zeros65 = some iz ∧
      interpolate_sky_measures zeros65 = some aa ∧
      aa.length = 25560 ∧
      (aa ++ aa.take 71).length = 361 * 71 ∧
      (∀ k, k < 71 → (aa.take 71).getD k 0 = azimuth_interp_at iz 0 k) ∧
      prepare_interp_measures aa = some (az, grid) ∧
      assembled_grid zeros65 = some (az, grid) :=
  C2_amended zeros65 zeros65_length

/-! ### Claim C3 -/

/-- C3 counterexample: for the record whose explicit 360° block is 30 and
whose 0° block is 0, the last value of the azimuth-interpolated output at
dense zenith index 0 (the value the code drops) is 30, while the output value
at azimuth 0 is 0 — the dropped value is not a duplicate of the azimuth-0
value. -/
theorem C3_counterexample :
    ∃ iz, interp_zeniths record_c3 = some iz ∧
      (np_interp AZIMUTH_RANGE AZIMUTHS (azimuth_profile iz 0)).getD 360 0 = 30 ∧
      (np_interp AZIMUTH_RANGE AZIMUTHS (azimuth_profile iz 0)).getD 0 0 = 0 := by
  obtain ⟨iz, hiz, _, _⟩ := interp_zeniths_spec record_c3 13 (by simp [record_c3])
  refine ⟨iz, hiz, ?_, ?_⟩
  · rw [np_interp_AZR_getD _ (by omega),
      azimuth_profile_eq record_c3 iz record_c3_length hiz (by omega)]
    norm_num [interpPts, ZENITHS, AZIMUTHS, record_c3, List.range_succ]
  · rw [np_interp_AZR_getD _ (by omega),
      azimuth_profile_eq record_c3 iz record_c3_length hiz (by omega)]
    norm_num [interpPts, ZENITHS, AZIMUTHS, record_c3, List.range_succ]

/-- C3 amended: for each dense zenith index `z` the azimuth pass gathers one
scalar at zenith-offset `z` from each of the `N_a = 13` azimuth blocks of the
interpolated zenith sequence (the record carries an explicit 360° block;
nothing is appended), and the final output value it drops equals the gathered
360°-block value — the profile's own last entry, not necessarily the value at
azimuth 0°. -/
theorem C3_amended (values : List ℚ) (h : values.length = 65) (z : Nat)
    (hz : z < 71) :
    ∃ iz, interp_zeniths values = some iz ∧
      values_at_zenith iz z = some (azimuth_profile iz z) ∧
      (azimuth_profile iz z).length = AZIMUTHS.length ∧
      (np_interp AZIMUTH_RANGE AZIMUTHS (azimuth_profile iz z)).getD 360 0 =
        (azimuth_profile iz z).getD 12 0 := by
  obtain ⟨iz, hiz, hlen, _⟩ := interp_zeniths_spec values 13 (by omega)
  have hlen923 : iz.length = 923 := by rw [hlen]
  have hplen : (azimuth_profile iz z).length = 13 := by
    rw [azimuth_profile, List.length_map, List.length_range, AZIMUTHS_length]
  refine ⟨iz, hiz, values_at_zenith_spec iz hlen923 hz, ?_, ?_⟩
  · rw [hplen, AZIMUTHS_length]
  · rw [np_interp_AZR_getD _ (by omega),
      show ((360:ℕ):ℚ) = (360:ℚ) by norm_num]
    exact interpPts_AZ_360 _ hplen

/-- Witness for the amended C3 at a concrete record and zenith index. -/
theorem C3_amended_witness :
    ∃ iz, interp_zeniths zeros65 = some iz ∧
      values_at_zenith iz 3 = some (azimuth_profile iz 3) ∧
      (azimuth_profile iz 3).length = AZIMUTHS.length ∧
      (np_interp AZIMUTH_RANGE AZIMUTHS (azimuth_profile iz 3)).getD 360 0 =
        (azimuth_profile iz 3).getD 12 0 :=
  C3_amended zeros65 zeros65_length 3 (by norm_num)

/-! ### Claim C4 -/

/-- C4 counterexample: `(N_a - 1) * N_z = 60`, and on a 60-value input (the
length the claim's formula names) the pipeline fails — the azimuth gather
indexes past the end of the 852-long zenith sequence; on an actual validated
65-value record the zenith pass yields 13 blocks (not `N_a - 1 = 12`) and
output length 923 (not 852). -/
theorem C4_counterexample :
    (AZIMUTHS.length - 1) * ZENITHS.length = 60 ∧
    zeros60.length = (AZIMUTHS.length - 1) * ZENITHS.length ∧
    interpolate_sky_measures zeros60 = none ∧
    (∃ iz, interp_zeniths zeros65 = some iz ∧
      iz.length = 923 ∧
      iz.length ≠ (AZIMUTHS.length - 1) * ALL_ZENITH_VALUES.length) ∧
    (zenith_chunks zeros65).length ≠ AZIMUTHS.length - 1 := by
  obtain ⟨iz, hiz, hlen, _⟩ := interp_zeniths_spec zeros65 13 (by simp [zeros65])
  obtain ⟨hchunks, _, _⟩ := zenith_chunks_spec 13 zeros65 (by simp [zeros65])
  refine ⟨rfl, by decide, interpolate_none_of_60 zeros60 (by simp [zeros60]),
    ⟨iz, hiz, by rw [hlen], ?_⟩, ?_⟩
  · rw [hlen, AZIMUTHS_length, ALL_ZENITH_VALUES_length]
    omega
  · rw [hchunks, AZIMUTHS_length]
    omega

/-- C4 amended: validated records have `N_a * N_z = 65` values; the Zenith
Interpolator partitions them into `N_a = 13` contiguous blocks of `N_z = 5`
scalars, interpolates each onto the 71 dense zeniths, producing output of
length `13 · 71 = 923`, and on such input the whole pipeline cannot fail. -/
theorem C4_amended (values : List ℚ) (h : values.length = DATA_SIZE) :
    ∃ iz aa, interp_zeniths values = some iz ∧
      (zenith_chunks values).length = AZIMUTHS.length ∧
      (∀ c ∈ zenith_chunks values, c.length = ZENITHS.length) ∧
      (∀ j, j < AZIMUTHS.length →
        (zenith_chunks values).get? j = some ((values.drop (5 * j)).take 5)) ∧
      iz.length = AZIMUTHS.length * ALL_ZENITH_VALUES.length ∧
      interpolate_sky_measures values = some aa ∧
      assembled_grid values ≠ none := by
  have h65 : values.length = 65 := h
  obtain ⟨hchunks, hclen, hcget⟩ := zenith_chunks_spec 13 values (by omega)
  obtain ⟨iz, g, hiz, hizlen, hinterp, hag, _, _, _, _⟩ :=
    assembled_grid_spec values h65
  refine ⟨iz, (azimuth_blocks iz).flatten, hiz, ?_, ?_, ?_, ?_, hinterp, ?_⟩
  · rw [hchunks, AZIMUTHS_length]
  · intro c hc
    rw [hclen c hc, ZENITHS_length]
  · intro j hj
    rw [AZIMUTHS_length] at hj
    exact hcget j hj
  · rw [hizlen, AZIMUTHS_length, ALL_ZENITH_VALUES_length]
  · rw [hag]
    exact Option.some_ne_none _

/-- Witness for the amended C4 at a concrete record. -/
theorem C4_amended_witness :
    ∃ iz aa, interp_zeniths zeros65 = some iz ∧
      (zenith_chunks zeros65).length = AZIMUTHS.length ∧
      (∀ c ∈ zenith_chunks zeros65, c.length = ZENITHS.length) ∧
      (∀ j, j < AZIMUTHS.length →
        (zenith_chunks zeros65).get? j = some ((zeros65.drop (5 * j)).take 5)) ∧
      iz.length = AZIMUTHS.length * ALL_ZENITH_VALUES.length ∧
      interpolate_sky_measures zeros65 = some aa ∧
      assembled_grid zeros65 ≠ none :=
  C4_amended zeros65 zeros65_length

/-! ### Claim C8 -/

/-- C8 counterexample: `(N_a - 1) * N_z = 12 · 5 = 60 ≠ 65 = DATA_SIZE`, and a
record whose data line has exactly `(N_a - 1) * N_z` numeric entries is
rejected (`None`) — the accepted entry count is `N_a · N_z`, not
`(N_a - 1) · N_z`. -/
theorem C8_counterexample :
    (AZIMUTHS.length - 1) * ZENITHS.length ≠ DATA_SIZE ∧
    data_is_valid [[Tok.num 0],
      List.replicate ((AZIMUTHS.length - 1) * ZENITHS.length) (Tok.num 1)] =
      Except.ok none := by
  constructor
  · decide
  · apply data_is_valid_wrong_size
    decide

/-- C8 amended: ingestion accepts a record only if its data line splits into
exactly `N_a * N_z = 65` entries; for any other entry count `data_is_valid`
returns `None`, and every record delivered by `read_data_files` to the
pipeline has exactly `DATA_SIZE = 65` values. -/
theorem C8_amended :
    AZIMUTHS.length * ZENITHS.length = DATA_SIZE ∧
    (∀ dr : List (List Tok),
      (dr.getD DATA_FILE_ITEM_WITH_DATA []).length ≠ DATA_SIZE →
      data_is_valid dr = Except.ok none) ∧
    (∀ (files : List (List (List Tok))) res rec,
      read_data_files files = Except.ok res → rec ∈ res →
      rec.2.length = DATA_SIZE) :=
  ⟨by decide, data_is_valid_wrong_size, read_data_files_mem⟩

/-- Witness for the amended C8: a record with 64 entries is rejected. -/
theorem C8_amended_witness :
    data_is_valid [[Tok.num 0], List.replicate 64 (Tok.num 1)] =
      Except.ok none :=
  C8_amended.2.1 [[Tok.num 0], List.replicate 64 (Tok.num 1)] (by decide)

/-! ### Claim C9 -/

/-- C9: a record whose data line has the correct count of 65 entries but one
non-numeric entry makes `data_is_valid` raise (`float` raises `ValueError`
before the dead `isinstance` check), rather than return `None` with a
warning. -/
theorem C9_nonnumeric_raises :
    (List.replicate 64 (Tok.num 1) ++ [Tok.nonnum]).length = DATA_SIZE ∧
    data_is_valid [[Tok.num 0], List.replicate 64 (Tok.num 1) ++ [Tok.nonnum]] =
      Except.error () := by
  constructor
  · decide
  · rfl

/-! ### Claim C1 -/

/-- C1: interpolation exactness at the samples fails on the assembled grid.
For the record that is 0 everywhere except value 30 at flat index 6 (sampled
azimuth 30°, sampled zenith 40°), the record's value at (azimuth 0°, zenith
40°) is `record_c1[1] = 0`, but the assembled grid at the nearest dense
indices — azimuth index 0, zenith index 20 — holds 20 (the column rotation
puts the azimuth-20° interpolated value there). -/
theorem C1_exactness_fails :
    record_c1.length = DATA_SIZE ∧
    record_c1.getD 1 0 = 0 ∧
    ∃ az grid, assembled_grid record_c1 = some (az, grid) ∧
      (grid.getD 0 []).getD 20 0 = 20 := by
  refine ⟨record_c1_length, by rfl, ?_⟩
  obtain ⟨iz, g, hiz, _, _, hag, _, _, _, hentry⟩ :=
    assembled_grid_spec record_c1 record_c1_length
  refine ⟨azimuth_radians, g, hag, ?_⟩
  rw [hentry 0 20 (by norm_num) (by norm_num), azimuth_interp_at,
    np_interp_AZR_getD _ (by omega),
    azimuth_profile_eq record_c1 iz record_c1_length hiz (by omega)]
  norm_num [interpPts, ZENITHS, AZIMUTHS, record_c1, List.range_succ]

/-! ### Claim C10 -/

/-- C10: on a 361×71 grid, when the use-data-for-color-range flag is set the
grid is unchanged; when the flag is unset exactly the two corner cells
`grid[0][0]` and `grid[-1][-1]` are overwritten with the sentinels
`LIGHTEST_VALUE = 19` and `DARKER_VALUE = 22`, every other cell keeping its
value. -/
theorem C10_color_range (flag : Bool) (g : List (List ℚ))
    (hlen : g.length = 361) (hrows : ∀ row ∈ g, row.length = 71) :
    (flag = true → apply_color_range flag g = g) ∧
    (flag = false →
      ((apply_color_range flag g).getD 0 []).getD 0 0 = LIGHTEST_VALUE ∧
      ((apply_color_range flag g).getD 360 []).getD 70 0 = DARKER_VALUE ∧
      (∀ i j, i < 361 → j < 71 → ¬(i = 0 ∧ j = 0) → ¬(i = 360 ∧ j = 70) →
        ((apply_color_range flag g).getD i []).getD j 0 =
          (g.getD i []).getD j 0)) := by
  constructor
  · intro hf
    subst hf
    rfl
  · intro hf
    subst hf
    have hrow0 : ∃ row0, g.get? 0 = some row0 ∧ row0.length = 71 := by
      cases h0 : g.get? 0 with
      | none => rw [List.get?_eq_none] at h0; omega
      | some r => exact ⟨r, rfl, hrows r (List.get?_mem h0)⟩
    have hrow360 : ∃ row360, g.get? 360 = some row360 ∧ row360.length = 71 := by
      cases h0 : g.get? 360 with
      | none => rw [List.get?_eq_none] at h0; omega
      | some r => exact ⟨r, rfl, hrows r (List.get?_mem h0)⟩
    obtain ⟨row0, hr0, hr0len⟩ := hrow0
    obtain ⟨row360, hr360, hr360len⟩ := hrow360
    have happ : apply_color_range false g =
        (g.set 0 (row0.set 0 LIGHTEST_VALUE)).set 360
          (row360.set 70 DARKER_VALUE) := by
      rw [apply_color_range]
      simp only [Bool.not_false, if_pos]
      have hh : g.headD [] = row0 := by
        rw [headD_eq_getD, List.getD_eq_get?, hr0, Option.getD_some]
      rw [hh]
      have hlen1 : (g.set 0 (row0.set 0 LIGHTEST_VALUE)).length = 361 := by
        rw [List.length_set, hlen]
      have hlast : (g.set 0 (row0.set 0 LIGHTEST_VALUE)).getLastD [] = row360 := by
        rw [getLastD_eq_getD, hlen1, List.getD_eq_get?,
          List.get?_set_ne _ _ (by omega), hr360, Option.getD_some]
      rw [hlast, hlen1, hr360len]
    rw [happ]
    have hG0 : ((g.set 0 (row0.set 0 LIGHTEST_VALUE)).set 360
        (row360.set 70 DARKER_VALUE)).getD 0 [] = row0.set 0 LIGHTEST_VALUE := by
      rw [List.getD_eq_get?, List.get?_set_ne _ _ (by omega),
        List.get?_set_eq_of_lt _ (by omega), Option.getD_some]
    have hG360 : ((g.set 0 (row0.set 0 LIGHTEST_VALUE)).set 360
        (row360.set 70 DARKER_VALUE)).getD 360 [] = row360.set 70 DARKER_VALUE := by
      rw [List.getD_eq_get?,
        List.get?_set_eq_of_lt _ (by rw [List.length_set]; omega),
        Option.getD_some]
    have hGi : ∀ i, i ≠ 0 → i ≠ 360 →
        ((g.set 0 (row0.set 0 LIGHTEST_VALUE)).set 360
          (row360.set 70 DARKER_VALUE)).getD i [] = g.getD i [] := by
      intro i h0 h360
      rw [List.getD_eq_get?, List.get?_set_ne _ _ (Ne.symm h360),
        List.get?_set_ne _ _ (Ne.symm h0), List.getD_eq_get?]
    refine ⟨?_, ?_, ?_⟩
    · rw [hG0, List.getD_eq_get?, List.get?_set_eq_of_lt _ (by omega),
        Option.getD_some]
    · rw [hG360, List.getD_eq_get?, List.get?_set_eq_of_lt _ (by omega),
        Option.getD_some]
    · intro i j hi hj hij0 hij1
      rcases eq_or_ne i 0 with rfl | hi0
      · have hj0 : j ≠ 0 := fun hc => hij0 ⟨rfl, hc⟩
        rw [hG0, List.getD_eq_get?, List.get?_set_ne _ _ (Ne.symm hj0),
          List.getD_eq_get? g 0, hr0, Option.getD_some, List.getD_eq_get? row0 j]
      · rcases eq_or_ne i 360 with rfl | hi360
        · have hj70 : j ≠ 70 := fun hc => hij1 ⟨rfl, hc⟩
          rw [hG360, List.getD_eq_get?, List.get?_set_ne _ _ (Ne.symm hj70),
            List.getD_eq_get? g 360, hr360, Option.getD_some,
            List.getD_eq_get? row360 j]
        · rw [hGi i hi0 hi360]

/-- Witness for C10 on a concrete 361×71 grid. -/
theorem C10_color_range_witness :
    (apply_color_range true (List.replicate 361 (List.replicate 71 (5:ℚ))) =
      List.replicate 361 (List.replicate 71 (5:ℚ))) ∧
    ((apply_color_range false (List.replicate 361 (List.replicate 71 (5:ℚ)))).getD
        0 []).getD 0 0 = LIGHTEST_VALUE ∧
    ((apply_color_range false (List.replicate 361 (List.replicate 71 (5:ℚ)))).getD
        360 []).getD 70 0 = DARKER_VALUE ∧
    ((apply_color_range false (List.replicate 361 (List.replicate 71 (5:ℚ)))).getD
        5 []).getD 9 0 =
      ((List.replicate 361 (List.replicate 71 (5:ℚ))).getD 5 []).getD 9 0 := by
  have hrows : ∀ row ∈ List.replicate 361 (List.replicate 71 (5:ℚ)),
      row.length = 71 := by
    intro row hr
    rw [List.eq_of_mem_replicate hr, List.length_replicate]
  have h1 := (C10_color_range true (List.replicate 361 (List.replicate 71 (5:ℚ)))
    (List.length_replicate 361 _) hrows).1 rfl
  have h2 := (C10_color_range false (List.replicate 361 (List.replicate 71 (5:ℚ)))
    (List.length_replicate 361 _) hrows).2 rfl
  exact ⟨h1, h2.1, h2.2.1,
    h2.2.2 5 9 (by norm_num) (by norm_num) (by simp) (by simp)⟩
